import Mathlib

/-!
Verification of the Spendwise-pro authentication session core.

This file gives a shallow embedding, in Lean 4, of the authentication core of
the Spendwise-pro repository:

* the JWT codec used by `generateAccessToken` / `generateRefreshToken` and by
  `jwt.verify` in the controllers and the auth middleware
  (`server/controllers/authController.js`, `server/middleware/auth.js`);
* the persisted refresh-token ledger (`server/models/RefreshToken.js`),
  modelled as a list of documents in insertion order, with the two statics
  `cleanupExpiredTokens` and `revokeAllUserTokens`;
* the issuance path `sendTokenResponse` and the rotation endpoint
  `refreshToken` of `server/controllers/authController.js`;
* the `AppError` shape and the rendering performed by `errorHandler`
  (`server/middleware/errorHandler.js`);
* the client-side axios interceptor pair (`client/src/api/index.ts`):
  the single-flight refresh coordination of the response error handler and
  the token-slot update of the response success handler.

Machine integers do not occur in the modelled code paths; times are plain
`Nat` values (seconds), strings are `String`.  Persistence calls that can
throw (`RefreshToken.create`, `user.save`, `deleteMany`, `updateMany`) are
modelled by explicit Boolean fault parameters, because the source's control
flow branches on exactly those outcomes (try/catch blocks).
-/

namespace Spendwise

/-! ### JWT codec

`jsonwebtoken`'s `jwt.sign(payload, secret, {expiresIn})` produces the string
`base64url(header) ++ "." ++ base64url(json payload) ++ "." ++ hmac(secret, ...)`.
We model a signed token as a structure carrying the payload, the issued-at and
expiry instants, and the signing secret; possession of the matching secret is
what `jwt.verify` checks (tamper evidence), while the payload itself is a
base64url-encoded JSON object readable by anyone, with or without the secret.
-/

/-- Payload `{ id: userId }` used by `generateAccessToken` and
`generateRefreshToken` in `authController.js`. -/
structure IdClaims where
  id : String
deriving DecidableEq

/-- A signed JWT with payload type `α`.  The `secret` field models the keyed
signature: verification succeeds exactly when the verifier supplies the same
secret.  The `claims` field models the base64url payload segment, which is
readable without any secret. -/
structure Token (α : Type) where
  claims : α
  iat : Nat
  exp : Nat
  secret : String
deriving DecidableEq

/-- The two failure modes of `jwt.verify`: `JsonWebTokenError` (bad signature
or structure) and `TokenExpiredError`. -/
inductive JwtError where
  | malformed
  | expired
deriving DecidableEq

/-- Model of `jwt.sign(claims, secret, { expiresIn: ttl })` evaluated at
instant `now`: the token records `iat = now` and `exp = now + ttl`. -/
def jwtSign (secret : String) (claims : α) (ttl : Nat) (now : Nat) : Token α :=
  { claims := claims, iat := now, exp := now + ttl, secret := secret }

/-- Model of `jwt.verify(token, secret)` at clock instant `now`.  The library
checks the signature first (`JsonWebTokenError` on mismatch) and then throws
`TokenExpiredError` when `clockTimestamp >= payload.exp`. -/
def jwtVerify (secret : String) (now : Nat) (t : Token α) : Except JwtError α :=
  if t.secret ≠ secret then .error .malformed
  else if t.exp ≤ now then .error .expired
  else .ok t.claims

/-- Decoding the payload segment of a JWT.  This function takes no secret:
the payload of a JWT is base64url-encoded JSON, not ciphertext, so any holder
of the token string can read it. -/
def jwtDecodePayload (t : Token α) : α :=
  t.claims

/-! ### Configuration

`authController.js` reads `JWT_SECRET`, `JWT_REFRESH_SECRET`, `JWT_EXPIRE`
(default 15m) and `JWT_REFRESH_EXPIRE` (default 7d) from the environment. -/

/-- Environment configuration of the auth controller. -/
structure AuthEnv where
  jwtSecret : String
  jwtRefreshSecret : String
  accessTtl : Nat
  refreshTtl : Nat
deriving DecidableEq

/-- Seven days in seconds: the fixed `'7d'` / `setDate(+7)` window used when
persisting refresh records. -/
def sevenDays : Nat := 7 * 24 * 60 * 60

/-- Model of `generateAccessToken(userId)`:
`jwt.sign({id: userId}, JWT_SECRET, {expiresIn: JWT_EXPIRE})`. -/
def generateAccessToken (cfg : AuthEnv) (now : Nat) (userId : String) : Token IdClaims :=
  jwtSign cfg.jwtSecret { id := userId } cfg.accessTtl now

/-- Model of `generateRefreshToken(userId)`:
`jwt.sign({id: userId}, JWT_REFRESH_SECRET, {expiresIn: JWT_REFRESH_EXPIRE})`. -/
def generateRefreshToken (cfg : AuthEnv) (now : Nat) (userId : String) : Token IdClaims :=
  jwtSign cfg.jwtRefreshSecret { id := userId } cfg.refreshTtl now

/-- Model of the controller's stored form of a refresh token:
`jwt.sign({token: refreshToken}, JWT_REFRESH_SECRET, {expiresIn: '7d'})`.
The payload of the stored JWT wraps the raw refresh token itself. -/
def hashRefreshToken (cfg : AuthEnv) (now : Nat) (raw : Token IdClaims) :
    Token (Token IdClaims) :=
  jwtSign cfg.jwtRefreshSecret raw sevenDays now

/-! ### RefreshToken model (`server/models/RefreshToken.js`)

A ledger is the list of persisted documents in insertion order; `findOne`
without a sort returns the first match in that order. -/

/-- One document of the `RefreshToken` collection. -/
structure RefreshTokenDoc where
  token : Token (Token IdClaims)
  user : String
  expiresAt : Nat
  isRevoked : Bool
  userAgent : String
  ipAddress : String
deriving DecidableEq

/-- Model of `RefreshToken.findOne({ user: userId, isRevoked: false })`:
first document, in insertion order, belonging to `userId` and not revoked.
Note: the query matches on the user id and the revocation flag only; it never
compares the presented token against the stored `token` field. -/
def findActiveForUser (ledger : List RefreshTokenDoc) (userId : String) :
    Option RefreshTokenDoc :=
  ledger.find? fun r => r.user == userId && !r.isRevoked

/-- Model of `storedToken.isRevoked = true; await storedToken.save()` applied
to the document returned by `findActiveForUser`: flips `isRevoked` on the
first active document of the user, leaving every other row unchanged. -/
def revokeFirstActiveForUser : List RefreshTokenDoc → String → List RefreshTokenDoc
  | [], _ => []
  | r :: rs, userId =>
    if r.user == userId && !r.isRevoked then { r with isRevoked := true } :: rs
    else r :: revokeFirstActiveForUser rs userId

/-- A document is matched by the cleanup sweep when it is expired or revoked
(`$or: [{expiresAt: {$lt: now}}, {isRevoked: true}]`). -/
def expiredOrRevoked (now : Nat) (r : RefreshTokenDoc) : Bool :=
  decide (r.expiresAt < now) || r.isRevoked

/-- Model of the static `RefreshToken.cleanupExpiredTokens()`: deletes every
expired-or-revoked row and returns `deletedCount`; any thrown persistence
error is caught and `0` is returned with the store untouched.  `dbThrows`
models the awaited `deleteMany` call throwing. -/
def cleanupExpiredTokens (dbThrows : Bool) (now : Nat)
    (ledger : List RefreshTokenDoc) : List RefreshTokenDoc × Nat :=
  if dbThrows then (ledger, 0)
  else
    (ledger.filter fun r => !expiredOrRevoked now r,
     (ledger.filter (expiredOrRevoked now)).length)

/-- A document is matched by `revokeAllUserTokens` when it belongs to the user
and is not yet revoked (`{user: userId, isRevoked: false}`). -/
def activeForUser (userId : String) (r : RefreshTokenDoc) : Bool :=
  r.user == userId && !r.isRevoked

/-- Model of the static `RefreshToken.revokeAllUserTokens(userId)`: sets
`isRevoked` on every matching row and returns `modifiedCount`; any thrown
persistence error is caught and `0` is returned with the store untouched. -/
def revokeAllUserTokens (dbThrows : Bool) (userId : String)
    (ledger : List RefreshTokenDoc) : List RefreshTokenDoc × Nat :=
  if dbThrows then (ledger, 0)
  else
    (ledger.map fun r => if activeForUser userId r then { r with isRevoked := true } else r,
     (ledger.filter (activeForUser userId)).length)

/-! ### AppError and the error handler (`server/middleware/errorHandler.js`) -/

/-- The `AppError` shape: `constructor(message, statusCode, code = null)`.
Every call site in `authController.js` invokes `new AppError()` with no
arguments, leaving `message` and `statusCode` undefined and `code` null; all
three absences are modelled as `none`. -/
structure AppError where
  message : Option String
  statusCode : Option Nat
  code : Option String
deriving DecidableEq

/-- The error value produced by `new AppError()` (no arguments). -/
def AppError.bare : AppError :=
  { message := none, statusCode := none, code := none }

/-- The JSON error response sent by `errorHandler`. -/
structure ErrorResponse where
  status : Nat
  message : String
  code : String
deriving DecidableEq

/-- Model of `errorHandler` applied to an `AppError` forwarded by `next` from
the auth controller (such errors match none of the Mongoose/JWT-specific
rewrite branches, whose guards test `err.name` and `err.code === 11000`):
`res.status(error.statusCode || 500)` with
`message: error.message || 'Internal Server Error'` and
`code: error.code || 'SERVER_ERROR'`. -/
def errorHandler (e : AppError) : ErrorResponse :=
  { status := e.statusCode.getD 500
  , message := e.message.getD "Internal Server Error"
  , code := e.code.getD "SERVER_ERROR" }

/-! ### Issuance: `sendTokenResponse` (`authController.js`, lines 47-116) -/

/-- The user document fields touched by the auth controller. -/
structure UserDoc where
  id : String
  email : String
  name : String
  lastLogin : Option Nat
deriving DecidableEq

/-- The successful JSON response of the auth endpoints, together with the
cookies set on it.  `cookies` lists each `res.cookie(name, value, ...)` call
(cookie attributes such as httpOnly/secure/sameSite are not needed by any
claim and are omitted); `bodyAccessToken` / `bodyRefreshToken` /
`bodyUserId` record which fields the JSON body carries. -/
structure AuthSuccessResponse where
  status : Nat
  cookies : List (String × Token IdClaims)
  bodyAccessToken : Option (Token IdClaims)
  bodyRefreshToken : Option (Token IdClaims)
  bodyUserId : Option String
deriving DecidableEq

/-- Model of `sendTokenResponse(user, statusCode, refreshToken, req, res)`.

Control flow of the source, in order:
1. generate the access token;
2. if a refresh token was passed: hash it with `jwt.sign`, compute
   `expiresAt = now + 7 days`, and `await RefreshToken.create(...)` inside a
   try/catch whose catch only logs ("Continue anyway"); `createThrows` models
   the create call throwing;
3. `user.lastLogin = new Date(); await user.save(...)` with no surrounding
   try/catch, so a thrown save error propagates through `asyncHandler` and no
   success response is sent; `saveThrows` models that;
4. `res.status(statusCode).cookie('token', accessToken, ...).json({...})`
   with body `{user: publicProfile, accessToken}`.

Returns the final ledger, the (in-memory) user document, and either the
success response or the propagated exception message. -/
def sendTokenResponse (cfg : AuthEnv) (now : Nat) (createThrows saveThrows : Bool)
    (user : UserDoc) (statusCode : Nat) (refreshTok : Option (Token IdClaims))
    (userAgent ipAddress : Option String) (ledger : List RefreshTokenDoc) :
    List RefreshTokenDoc × UserDoc × Except String AuthSuccessResponse :=
  let accessToken := generateAccessToken cfg now user.id
  let ledger1 :=
    match refreshTok with
    | none => ledger
    | some rt =>
      if createThrows then ledger
      else
        ledger ++ [{ token := hashRefreshToken cfg now rt
                   , user := user.id
                   , expiresAt := now + sevenDays
                   , isRevoked := false
                   , userAgent := userAgent.getD "Unknown"
                   , ipAddress := ipAddress.getD "Unknown" }]
  let user1 := { user with lastLogin := some now }
  if saveThrows then (ledger1, user1, .error "user.save failed")
  else
    (ledger1, user1,
     .ok { status := statusCode
         , cookies := [("token", accessToken)]
         , bodyAccessToken := some accessToken
         , bodyRefreshToken := none
         , bodyUserId := some user.id })

/-! ### Rotation: the `refreshToken` endpoint (`authController.js`, lines 231-317) -/

/-- The request data read by the refresh endpoint:
`req.cookies.refreshToken || req.body.refreshToken`, plus the device headers
used when persisting the successor record. -/
structure RefreshRequest where
  cookieRefreshToken : Option (Token IdClaims)
  bodyRefreshToken : Option (Token IdClaims)
  userAgent : Option String
  ipAddress : Option String
deriving DecidableEq

/-- Model of the `refreshToken` endpoint handler.

Control flow of the source, in order:
1. `req.cookies.refreshToken || req.body.refreshToken`; absent →
   `next(new AppError())`;
2. `jwt.verify(value, JWT_REFRESH_SECRET)`; a throw lands in the catch-all,
   which calls `next(new AppError())`;
3. `RefreshToken.findOne({user: decoded.id, isRevoked: false})`; no match →
   `next(new AppError())`;
4. if `storedToken.expiresAt < now`: revoke it and `next(new AppError())`;
5. otherwise generate a new refresh token, revoke the found record, generate
   a new access token, hash and `RefreshToken.create` the successor record
   (`createThrows` models that create call throwing, which the catch-all
   turns into `next(new AppError())` after the revoke already happened);
6. respond 200 with cookie `token = accessToken` and body `{accessToken}`.

Returns the final ledger and the outcome. -/
def refreshEndpoint (cfg : AuthEnv) (now : Nat) (createThrows : Bool)
    (req : RefreshRequest) (ledger : List RefreshTokenDoc) :
    List RefreshTokenDoc × Except AppError AuthSuccessResponse :=
  match req.cookieRefreshToken <|> req.bodyRefreshToken with
  | none => (ledger, .error AppError.bare)
  | some presented =>
    match jwtVerify cfg.jwtRefreshSecret now presented with
    | .error _ => (ledger, .error AppError.bare)
    | .ok decoded =>
      match findActiveForUser ledger decoded.id with
      | none => (ledger, .error AppError.bare)
      | some stored =>
        if stored.expiresAt < now then
          (revokeFirstActiveForUser ledger decoded.id, .error AppError.bare)
        else
          let newRefreshToken := generateRefreshToken cfg now decoded.id
          let ledger1 := revokeFirstActiveForUser ledger decoded.id
          let accessToken := generateAccessToken cfg now decoded.id
          let hashedToken := hashRefreshToken cfg now newRefreshToken
          if createThrows then (ledger1, .error AppError.bare)
          else
            (ledger1 ++ [{ token := hashedToken
                         , user := decoded.id
                         , expiresAt := now + sevenDays
                         , isRevoked := false
                         , userAgent := req.userAgent.getD "Unknown"
                         , ipAddress := req.ipAddress.getD "Unknown" }],
             .ok { status := 200
                 , cookies := [("token", accessToken)]
                 , bodyAccessToken := some accessToken
                 , bodyRefreshToken := none
                 , bodyUserId := none })

/-- True when an `Except` result carries a success value. -/
def isOkExcept : Except ε α → Bool
  | .ok _ => true
  | .error _ => false

/-! ### Client response interceptor (`client/src/api/index.ts`)

The success handler stores `response.data?.data?.accessToken` into the
localStorage slot when the value is truthy.  The error handler implements the
single-flight refresh coordination via the module-level `isRefreshing` flag
and `failedQueue` array. -/

/-- The `data` object of the API response envelope. -/
structure RespData where
  accessToken : Option String
deriving DecidableEq

/-- The JSON body (`response.data` in axios) of an API response. -/
structure RespBody where
  data : Option RespData
deriving DecidableEq

/-- An axios success response, reduced to the body the interceptor reads. -/
structure AxiosResponse where
  body : Option RespBody
deriving DecidableEq

/-- The optional chain `response.data?.data?.accessToken`. -/
def extractAccessToken (resp : AxiosResponse) : Option String :=
  resp.body.bind fun b => b.data.bind fun d => d.accessToken

/-- Model of the interceptor success handler:
`const token = response.data?.data?.accessToken; if (token) localStorage.setItem('accessToken', token)`.
In JavaScript `if (token)` is false for `undefined` and for the empty string,
so the slot is written only for a present, non-empty value.  Returns the new
slot contents. -/
def storeTokenFromResponse (slot : Option String) (resp : AxiosResponse) :
    Option String :=
  match extractAccessToken resp with
  | some t => if t = "" then slot else some t
  | none => slot

/-- The coordination state of the interceptor error handler: the module-level
`isRefreshing` flag and `failedQueue` array, the localStorage access-token
slot, a counter of calls made to `POST /auth/refresh`, and the request that
triggered the in-flight refresh (marked `_retry = true` in the source). -/
structure CoordState where
  isRefreshing : Bool
  failedQueue : List Nat
  accessTokenSlot : Option String
  rotationCalls : Nat
  trigger : Option Nat
deriving DecidableEq

/-- The idle interceptor state: no refresh in flight, empty queue, no
rotation call made yet. -/
def idleState (slot : Option String) : CoordState :=
  { isRefreshing := false, failedQueue := [], accessTokenSlot := slot
  , rotationCalls := 0, trigger := none }

/-- Model of one request observing a 401 while not yet retried.  If a refresh
is in flight the request pushes its continuation onto `failedQueue`;
otherwise it marks itself `_retry`, sets `isRefreshing = true` and issues the
single call to `POST /auth/refresh` (counted in `rotationCalls`). -/
def receive401 (s : CoordState) (reqId : Nat) : CoordState :=
  if s.isRefreshing then { s with failedQueue := s.failedQueue ++ [reqId] }
  else { s with isRefreshing := true, rotationCalls := s.rotationCalls + 1
              , trigger := some reqId }

/-- How a request in the batch is resolved. -/
inductive Outcome where
  | retriedWith (token : String)
  | rejected
deriving DecidableEq

/-- Model of the in-flight refresh completing with `result` (`some token` on
a 200 from the rotation endpoint, `none` on failure).

On success the handler stores the new token, resolves every queued
continuation with it via `processQueue(null, accessToken)` (each retries its
original request with `Authorization: Bearer token`), and then retries the
triggering request itself.  On failure it rejects every queued continuation
via `processQueue(err, null)`, removes the stored token, and rejects the
triggering request.  The `finally` block resets `isRefreshing`.  Returns the
new state and the resolution of each request (queued ones first, in arrival
order, then the trigger). -/
def completeRefresh (s : CoordState) (result : Option String) :
    CoordState × List (Nat × Outcome) :=
  match result with
  | some token =>
    ({ isRefreshing := false, failedQueue := [], accessTokenSlot := some token
     , rotationCalls := s.rotationCalls, trigger := none },
     (s.failedQueue.map fun i => (i, Outcome.retriedWith token)) ++
       (s.trigger.toList.map fun i => (i, Outcome.retriedWith token)))
  | none =>
    ({ isRefreshing := false, failedQueue := [], accessTokenSlot := none
     , rotationCalls := s.rotationCalls, trigger := none },
     (s.failedQueue.map fun i => (i, Outcome.rejected)) ++
       (s.trigger.toList.map fun i => (i, Outcome.rejected)))

/-- A batch of simultaneous 401s processed on the single-threaded event loop
from the idle state, followed by the completion of the one in-flight
refresh. -/
def runBatch (slot : Option String) (reqs : List Nat) (result : Option String) :
    CoordState × List (Nat × Outcome) :=
  completeRefresh (reqs.foldl receive401 (idleState slot)) result

/-- The common outcome a completed refresh hands to every waiting request. -/
def expectedOutcome : Option String → Outcome
  | some t => .retriedWith t
  | none => .rejected

/-! ### Concrete fixtures used by the closed theorems below -/

/-- A concrete environment: distinct access and refresh secrets, 15 minute
access window, 7 day refresh window (the source defaults). -/
def cfg0 : AuthEnv :=
  { jwtSecret := "access-secret", jwtRefreshSecret := "refresh-secret"
  , accessTtl := 900, refreshTtl := sevenDays }

/-- A concrete user document. -/
def user0 : UserDoc :=
  { id := "u1", email := "ann@example.com", name := "Ann", lastLogin := none }

/-- The raw refresh token minted for `u1` at instant 0, as `login` would. -/
def tokenA : Token IdClaims := generateRefreshToken cfg0 0 "u1"

/-- The ledger document that issuance at instant 0 persists for `tokenA`. -/
def record0 : RefreshTokenDoc :=
  { token := hashRefreshToken cfg0 0 tokenA, user := "u1"
  , expiresAt := sevenDays, isRevoked := false
  , userAgent := "ua", ipAddress := "ip" }

/-- A copy of `record0` whose stored expiry is already in the past. -/
def recordExpired : RefreshTokenDoc := { record0 with expiresAt := 5 }

/-- A refresh request presenting `tokenA` in the body. -/
def req0 : RefreshRequest :=
  { cookieRefreshToken := none, bodyRefreshToken := some tokenA
  , userAgent := some "ua", ipAddress := some "ip" }

/-- A refresh request presenting no token at all. -/
def reqNoToken : RefreshRequest :=
  { cookieRefreshToken := none, bodyRefreshToken := none
  , userAgent := none, ipAddress := none }

/-- A refresh request presenting a token signed with the wrong secret
(malformed from the verifier's point of view). -/
def reqBadSig : RefreshRequest :=
  { cookieRefreshToken := none
  , bodyRefreshToken := some (jwtSign "not-the-refresh-secret" { id := "u1" } sevenDays 0)
  , userAgent := none, ipAddress := none }

/-- A success response carrying a fresh non-empty access token. -/
def respWitness : AxiosResponse :=
  { body := some { data := some { accessToken := some "tok-1" } } }

/-- A success response whose `data.data.accessToken` field is present but is
the empty string (falsy in JavaScript). -/
def respEmptyToken : AxiosResponse :=
  { body := some { data := some { accessToken := some "" } } }

/-! ### Helper lemmas -/

/-- Revoking the first active record of a user never changes the number of
rows in the ledger. -/
theorem revokeFirstActiveForUser_length (ledger : List RefreshTokenDoc) (uid : String) :
    (revokeFirstActiveForUser ledger uid).length = ledger.length := by
  induction ledger with
  | nil => rfl
  | cons r rs ih =>
    unfold revokeFirstActiveForUser
    by_cases h : (r.user == uid && !r.isRevoked) = true
    · simp [h]
    · simp [h, ih]

/-- With a refresh already in flight, further 401s only append to the queue. -/
theorem foldl_receive401_refreshing (rs : List Nat) (s : CoordState)
    (h : s.isRefreshing = true) :
    rs.foldl receive401 s = { s with failedQueue := s.failedQueue ++ rs } := by
  induction rs generalizing s with
  | nil => simp
  | cons r rs ih =>
    rw [List.foldl_cons]
    have h1 : receive401 s r = { s with failedQueue := s.failedQueue ++ [r] } := by
      simp [receive401, h]
    rw [h1, ih _ (by simp [h])]
    simp

/-- The revoke-all map is the identity on a ledger with no active row for the
user. -/
theorem revokeAll_map_id (uid : String) (ledger : List RefreshTokenDoc)
    (h : ∀ r ∈ ledger, activeForUser uid r = false) :
    (ledger.map fun r => if activeForUser uid r then { r with isRevoked := true } else r) =
      ledger := by
  induction ledger with
  | nil => rfl
  | cons r rs ih =>
    simp [h r (by simp), ih fun x hx => h x (by simp [hx])]

/-! ### Claim theorems -/

/-- C8: codec round-trip.  For every configuration (hence every subject id
and every access ttl), verifying `generateAccessToken` with the access secret
at an instant `t` strictly before `issuedAt + ttl` returns the subject id,
and at any `t` at or after `issuedAt + ttl` fails with the distinct
`TokenExpiredError` outcome. -/
theorem codec_roundtrip (cfg : AuthEnv) (uid : String) (now t : Nat) :
    (t < now + cfg.accessTtl →
      jwtVerify cfg.jwtSecret t (generateAccessToken cfg now uid) = .ok { id := uid }) ∧
    (now + cfg.accessTtl ≤ t →
      jwtVerify cfg.jwtSecret t (generateAccessToken cfg now uid) = .error .expired) := by
  constructor
  · intro h
    simp only [generateAccessToken, jwtSign, jwtVerify]
    rw [if_neg (by simp), if_neg (by omega)]
  · intro h
    simp only [generateAccessToken, jwtSign, jwtVerify]
    rw [if_neg (by simp), if_pos (by omega)]

/-- Witness for C8 at `cfg0`, subject `u1`, issued at 0, checked at 5 (inside
the 900 second window) and at 900 (the expiry instant). -/
theorem codec_roundtrip_witness :
    jwtVerify cfg0.jwtSecret 5 (generateAccessToken cfg0 0 "u1") = .ok { id := "u1" } ∧
    jwtVerify cfg0.jwtSecret 900 (generateAccessToken cfg0 0 "u1") = .error .expired :=
  ⟨(codec_roundtrip cfg0 "u1" 0 5).1 (by decide),
   (codec_roundtrip cfg0 "u1" 0 900).2 (by decide)⟩

/-- C3: client single-flight collapsing.  From the idle state, any nonempty
batch of requests `r :: rs` that each receive a 401 while not yet retried
causes exactly one call to the rotation endpoint (`rotationCalls = 1`); every
request in the batch is resolved with the same outcome — retried once with
the single new access token on success, rejected on failure — the
access-token slot ends up holding exactly the refresh result (the new token,
or cleared on failure), and the coordinator returns to the idle state
(`isRefreshing = false`, empty queue). -/
theorem single_flight_collapsing (slot result : Option String) (r : Nat) (rs : List Nat) :
    runBatch slot (r :: rs) result =
      ({ isRefreshing := false, failedQueue := [], accessTokenSlot := result
       , rotationCalls := 1, trigger := none },
       (rs ++ [r]).map fun i => (i, expectedOutcome result)) := by
  unfold runBatch
  rw [List.foldl_cons]
  have h1 : receive401 (idleState slot) r =
      { isRefreshing := true, failedQueue := [], accessTokenSlot := slot
      , rotationCalls := 1, trigger := some r } := by
    simp [receive401, idleState]
  rw [h1, foldl_receive401_refreshing rs _ rfl]
  cases result <;> simp [completeRefresh, expectedOutcome]

/-- C9: the ledger housekeeping statics are total and swallow persistence
errors.  `cleanupExpiredTokens` returns the deleted-row count on success and
`0` with the store untouched on any thrown error; `revokeAllUserTokens`
returns the modified-row count on success and `0` with the store untouched on
any thrown error; and whenever zero rows match, the successful call is
indistinguishable (same store, same count) from the failed one. -/
theorem ledger_statics_swallow_errors (now : Nat) (uid : String)
    (ledger : List RefreshTokenDoc) :
    cleanupExpiredTokens true now ledger = (ledger, 0) ∧
    (cleanupExpiredTokens false now ledger).2 =
      (ledger.filter (expiredOrRevoked now)).length ∧
    revokeAllUserTokens true uid ledger = (ledger, 0) ∧
    (revokeAllUserTokens false uid ledger).2 =
      (ledger.filter (activeForUser uid)).length ∧
    ((ledger.filter (expiredOrRevoked now)).length = 0 →
      cleanupExpiredTokens false now ledger = cleanupExpiredTokens true now ledger) ∧
    ((ledger.filter (activeForUser uid)).length = 0 →
      revokeAllUserTokens false uid ledger = revokeAllUserTokens true uid ledger) := by
  refine ⟨rfl, rfl, rfl, rfl, fun h => ?_, fun h => ?_⟩
  · rw [List.length_eq_zero] at h
    have hall := List.filter_eq_nil_iff.mp h
    simp only [cleanupExpiredTokens, if_true, if_false, Bool.false_eq_true, ite_false, ite_true]
    rw [h, List.filter_eq_self.mpr fun a ha => by simp [hall a ha]]
    rfl
  · rw [List.length_eq_zero] at h
    have hall := List.filter_eq_nil_iff.mp h
    simp only [revokeAllUserTokens, Bool.false_eq_true, ite_false, ite_true]
    rw [h, revokeAll_map_id uid ledger fun r hr => by
      have := hall r hr
      simpa using this]
    rfl

/-- Witness for C9: on a ledger holding one live record, the zero-match
branches of both statics coincide with the corresponding failed calls. -/
theorem ledger_statics_swallow_errors_witness :
    cleanupExpiredTokens false 0 [record0] = cleanupExpiredTokens true 0 [record0] ∧
    revokeAllUserTokens false "nobody" [record0] = revokeAllUserTokens true "nobody" [record0] :=
  ⟨(ledger_statics_swallow_errors 0 "nobody" [record0]).2.2.2.2.1 (by decide),
   (ledger_statics_swallow_errors 0 "nobody" [record0]).2.2.2.2.2 (by decide)⟩

/-- C1 (code bug): rotation is not single-use.  With one active ledger record
for `u1`, presenting `tokenA` succeeds; presenting the very same `tokenA`
again, against the ledger the first call produced, succeeds a second time.
The endpoint's lookup is `findOne({user, isRevoked: false})` — it never
compares the presented token to the stored hash, so the successor record
created by the first rotation satisfies the second call's query. -/
theorem rotation_not_single_use :
    isOkExcept (refreshEndpoint cfg0 10 false req0 [record0]).2 = true ∧
    isOkExcept (refreshEndpoint cfg0 20 false req0
        (refreshEndpoint cfg0 10 false req0 [record0]).1).2 = true := by
  exact ⟨rfl, rfl⟩

/-- C2 (code bug): the refresh credential is never delivered to the client.
A successful issuance sets exactly one cookie, named `token`, holding the
access token, and its body carries only `accessToken` (which is not the raw
refresh token); a successful rotation likewise sets only the `token` cookie
with the new access token and returns only `accessToken` in the body — the
newly minted refresh token reaches no channel, even though the refresh
endpoint reads `req.cookies.refreshToken`. -/
theorem refresh_credential_never_delivered :
    (sendTokenResponse cfg0 0 false false user0 200 (some tokenA)
        (some "ua") (some "ip") []).2.2 =
      .ok { status := 200
          , cookies := [("token", generateAccessToken cfg0 0 "u1")]
          , bodyAccessToken := some (generateAccessToken cfg0 0 "u1")
          , bodyRefreshToken := none
          , bodyUserId := some "u1" } ∧
    generateAccessToken cfg0 0 "u1" ≠ tokenA ∧
    (refreshEndpoint cfg0 10 false req0 [record0]).2 =
      .ok { status := 200
          , cookies := [("token", generateAccessToken cfg0 10 "u1")]
          , bodyAccessToken := some (generateAccessToken cfg0 10 "u1")
          , bodyRefreshToken := none
          , bodyUserId := none } ∧
    generateAccessToken cfg0 10 "u1" ≠ generateRefreshToken cfg0 10 "u1" := by
  exact ⟨rfl, by decide, rfl, by decide⟩

/-- C4 (code bug): every failure path of the refresh endpoint — missing
token, malformed token, token with no active ledger record, and
found-but-expired record — forwards `new AppError()` with no message, status
or code, and `errorHandler` renders every one of them as the identical
generic `500 SERVER_ERROR` response; no distinct `REFRESH_TOKEN_REQUIRED`,
`INVALID_REFRESH_TOKEN` or `REFRESH_TOKEN_EXPIRED` code is ever produced. -/
theorem refresh_failures_all_render_server_error :
    (refreshEndpoint cfg0 10 false reqNoToken []).2 = .error AppError.bare ∧
    (refreshEndpoint cfg0 10 false reqBadSig []).2 = .error AppError.bare ∧
    (refreshEndpoint cfg0 10 false req0 []).2 = .error AppError.bare ∧
    (refreshEndpoint cfg0 10 false req0 [recordExpired]).2 = .error AppError.bare ∧
    errorHandler AppError.bare =
      { status := 500, message := "Internal Server Error", code := "SERVER_ERROR" } := by
  exact ⟨rfl, rfl, rfl, rfl, rfl⟩

/-- C5 counterexample: rotation is not atomic.  With one active record for
`u1` and a successor-persistence failure (`RefreshToken.create` throws after
the revoke), the endpoint returns an error while the ledger has changed: the
presented record is left revoked and no successor record exists. -/
theorem rotation_partial_failure_mutates_ledger :
    refreshEndpoint cfg0 10 true req0 [record0] =
      ([{ record0 with isRevoked := true }], .error AppError.bare) ∧
    [{ record0 with isRevoked := true }] ≠ [record0] := by
  exact ⟨rfl, by decide⟩

/-- C5 as amended: rotation revokes the presented record before persisting its
successor, with no transactional rollback.  Whenever a presented token
verifies, an active record is found and is unexpired, and persisting the
successor throws, the endpoint returns the generic error and the final ledger
is exactly the input ledger with that record revoked — same number of rows,
so no successor was created and the state is not restored. -/
theorem rotation_revokes_then_creates (cfg : AuthEnv) (now : Nat) (req : RefreshRequest)
    (ledger : List RefreshTokenDoc) (presented : Token IdClaims) (decoded : IdClaims)
    (stored : RefreshTokenDoc)
    (hTok : (req.cookieRefreshToken <|> req.bodyRefreshToken) = some presented)
    (hVer : jwtVerify cfg.jwtRefreshSecret now presented = .ok decoded)
    (hFind : findActiveForUser ledger decoded.id = some stored)
    (hNotExpired : ¬ stored.expiresAt < now) :
    refreshEndpoint cfg now true req ledger =
      (revokeFirstActiveForUser ledger decoded.id, .error AppError.bare) ∧
    (revokeFirstActiveForUser ledger decoded.id).length = ledger.length := by
  constructor
  · unfold refreshEndpoint
    rw [hTok]
    simp only [hVer, hFind, if_neg hNotExpired, ite_true]
  · exact revokeFirstActiveForUser_length ledger decoded.id

/-- Witness for C5's amended theorem at the concrete single-record ledger. -/
theorem rotation_revokes_then_creates_witness :
    refreshEndpoint cfg0 10 true req0 [record0] =
      (revokeFirstActiveForUser [record0] "u1", .error AppError.bare) ∧
    (revokeFirstActiveForUser [record0] "u1").length = [record0].length :=
  rotation_revokes_then_creates cfg0 10 req0 [record0] tokenA { id := "u1" } record0
    rfl rfl rfl (by decide)

/-- C6 (code bug): the stored refresh-token field is not an irreversible
hash.  It is `jwt.sign({token: raw}, JWT_REFRESH_SECRET)`, and a JWT payload
is base64url-encoded JSON, not ciphertext: `jwtDecodePayload`, which takes no
secret at all, recovers the raw refresh token from every stored value. -/
theorem stored_refresh_token_payload_recoverable (cfg : AuthEnv) (now : Nat)
    (raw : Token IdClaims) :
    jwtDecodePayload (hashRefreshToken cfg now raw) = raw := rfl

/-- C7 counterexample: after a successful identity validation, a thrown
`user.save()` while updating the last-login timestamp aborts issuance — the
result is a propagated error, and no success response carrying the access
token is delivered to the caller. -/
theorem lastLogin_save_failure_blocks_success :
    (sendTokenResponse cfg0 0 false true user0 200 (some tokenA)
        (some "ua") (some "ip") []).2.2 = .error "user.save failed" ∧
    isOkExcept (sendTokenResponse cfg0 0 false true user0 200 (some tokenA)
        (some "ua") (some "ip") []).2.2 = false := by
  exact ⟨rfl, rfl⟩

/-- C7 as amended: issuance is best-effort only for the refresh-record
persistence step.  For every input, a thrown `RefreshToken.create` is caught
and the success response with the access token is still returned, but a
thrown `user.save()` during the last-login update propagates and no success
response is sent. -/
theorem issuance_best_effort_only_for_refresh_persistence (cfg : AuthEnv) (now : Nat)
    (createThrows : Bool) (user : UserDoc) (statusCode : Nat)
    (refreshTok : Option (Token IdClaims)) (ua ip : Option String)
    (ledger : List RefreshTokenDoc) :
    (sendTokenResponse cfg now createThrows false user statusCode
        refreshTok ua ip ledger).2.2 =
      .ok { status := statusCode
          , cookies := [("token", generateAccessToken cfg now user.id)]
          , bodyAccessToken := some (generateAccessToken cfg now user.id)
          , bodyRefreshToken := none
          , bodyUserId := some user.id } ∧
    (sendTokenResponse cfg now createThrows true user statusCode
        refreshTok ua ip ledger).2.2 = .error "user.save failed" := by
  exact ⟨rfl, rfl⟩

/-- C10 counterexample: a successful response whose body does contain
`data.data.accessToken`, with the empty string as its value, leaves the
stored slot unchanged instead of replacing it with that value (JavaScript
`if (token)` is false for the empty string). -/
theorem interceptor_empty_token_not_stored :
    extractAccessToken respEmptyToken = some "" ∧
    storeTokenFromResponse (some "old") respEmptyToken = some "old" ∧
    (some "old" : Option String) ≠ some "" := by
  exact ⟨rfl, rfl, by decide⟩

/-- C10 as amended: for every successful response, if the body contains a
non-empty `data.data.accessToken` the slot is replaced with exactly that
value, and if the field is absent or is the empty string the slot is left
unchanged. -/
theorem interceptor_token_slot_update (slot : Option String) (resp : AxiosResponse) :
    (∀ t, extractAccessToken resp = some t → t ≠ "" →
      storeTokenFromResponse slot resp = some t) ∧
    (extractAccessToken resp = none → storeTokenFromResponse slot resp = slot) ∧
    (extractAccessToken resp = some "" → storeTokenFromResponse slot resp = slot) := by
  refine ⟨fun t ht hne => ?_, fun h => ?_, fun h => ?_⟩ <;>
    simp [storeTokenFromResponse, *]

/-- Witness for C10's amended theorem: a fresh non-empty token is stored. -/
theorem interceptor_token_slot_update_witness :
    storeTokenFromResponse (some "old") respWitness = some "tok-1" :=
  (interceptor_token_slot_update (some "old") respWitness).1 "tok-1" rfl (by decide)

end Spendwise
